import Mathlib

/-!
Verification of the chat middle layer: a shallow embedding of
`chat_module/service.py` (session orchestration, streaming commit protocol,
history cap, prompt budget enforcement) and `load_vectorstore/loader.py`
(the TTL-evicted retrieval handle cache), with theorems settling the
specification's claims about them.

External capabilities (the completion HTTP backend and the embedding /
FAISS search backend) are modelled as function-valued fields returning
`Except`, matching the spec's "opaque capability" treatment; everything
else is translated statement-by-statement from the Python source.
-/

set_option autoImplicit false

namespace ChatMiddleLayer

/-! ## Python semantics helpers -/

/-- Python list slicing `l[s:]` for an arbitrary integer start index:
a negative start counts from the end (clamped to 0), a nonnegative start
drops that many elements. Note `l[-0:] = l[0:] = l`. -/
def pySliceFrom {α : Type} (s : Int) (l : List α) : List α :=
  if s < 0 then l.drop ((l.length + s).toNat) else l.drop s.toNat

/-- Python `default if overridden is None else overridden`
(`ChatService._flag`). -/
def pyFlag (overridden : Option Bool) (default : Bool) : Bool :=
  overridden.getD default

/-- Truthiness of an optional string: `None` and `""` are falsy. -/
def strTruthy : Option String → Bool
  | none => false
  | some s => s ≠ ""

/-- Python `a or b` on optional strings (used for
`session.vector_store_dir or vector_store_dir`). -/
def pyOrOptStr (a b : Option String) : Option String :=
  if strTruthy a then a else b

/-- Python `a or b` where `a` is an optional string and `b` a plain string
(used for `system_prompt_override or self.config.system_prompt`). -/
def pyOrStr (a : Option String) (b : String) : String :=
  match a with
  | none => b
  | some s => if s ≠ "" then s else b

/-- Python `a or b` where `a` is an optional integer and `b` a plain one
(used for `top_k or self.config.context_top_k`); `0` is falsy. -/
def pyOrInt (a : Option Int) (b : Int) : Int :=
  match a with
  | none => b
  | some k => if k ≠ 0 then k else b

/-- Python `str.strip()`: remove leading and trailing whitespace
(structurally recursive so that it evaluates in the kernel). -/
def pyStrip (s : String) : String :=
  ⟨((s.data.dropWhile Char.isWhitespace).reverse.dropWhile Char.isWhitespace).reverse⟩

/-! ## Python `dict` model

Insertion-ordered association lists. `dictGet` reads the first binding of a
key; `dictSet` overwrites the first binding in place or appends a new one,
exactly like assignment into a Python `dict` (whose keys are unique). -/

def dictGet {α : Type} : List (String × α) → String → Option α
  | [], _ => none
  | (k', v) :: rest, k => if k' = k then some v else dictGet rest k

def dictSet {α : Type} : List (String × α) → String → α → List (String × α)
  | [], k, v => [(k, v)]
  | (k', v') :: rest, k, v =>
      if k' = k then (k', v) :: rest else (k', v') :: dictSet rest k v

/-- Key uniqueness, the invariant of every list standing for a Python dict. -/
def dictWF {α : Type} (d : List (String × α)) : Prop :=
  (d.map Prod.fst).Nodup

/-! ## Data model of `chat_module` -/

/-- One retrieval result, as produced by `VectorStoreLoader.search`:
`{"id": ..., "score": ..., "text": ..., "metadata": ...}`. The float score
is kept opaque as an integer rank datum; no claim inspects it. -/
structure SearchResult where
  id : Int
  score : Int
  text : String
  metadata : List (String × String)
deriving DecidableEq, Repr

/-- A chat message dict `{"role": ..., "content": ...}`. -/
structure Message where
  role : String
  content : String
deriving DecidableEq, Repr

/-- `ChatSessionState` from `chat_module/service.py`. -/
structure ChatSessionState where
  session_id : String
  messages : List Message
  summary : String
  intents : List String
  last_context : String
  last_retrievals : List SearchResult
  vector_store_dir : Option String
  updated_at : Nat
deriving DecidableEq, Repr

/-- `ChatConfig` from `chat_module/config.py` (the LLM connection details are
part of the opaque client). -/
structure ChatConfig where
  enable_context : Bool := true
  enable_summarisation : Bool := true
  enable_intent_tracking : Bool := true
  context_top_k : Int := 4
  max_history_messages : Int := 20
  system_prompt : String
  summarise_prompt : String
  intent_prompt : String
  max_prompt_tokens : Int := 30000
deriving DecidableEq, Repr

/-- `ChatLLMClient`: the opaque completions capability. `stream_completion`
yields the backend's fragment sequence for a prompt; `complete` returns the
full text or fails (`Unavailable` on transport errors). -/
structure ChatLLMClient where
  stream_completion : List Message → List String
  complete : List Message → Except Unit String

/-- The spec's error taxonomy (`ValueError` in the source maps to
`invalidArgument` / `notFound` by call site). -/
inductive ChatError where
  | invalidArgument
  | notFound
  | unavailable
deriving DecidableEq, Repr

/-- `ChatService`: configuration, client, the session store, and the optional
vector store provider. The provider is modelled by its observable behaviour
`build_context store_dir session_id query top_k` returning
`(context, results)` or raising. -/
structure ChatService where
  config : ChatConfig
  client : ChatLLMClient
  sessions : List (String × ChatSessionState)
  vector_store_provider :
    Option (String → String → String → Int → Except Unit (String × List SearchResult))

/-- A fresh `ChatSessionState(session_id=...)`: dataclass field defaults,
with `updated_at = time.time()` at construction. -/
def mkSession (session_id : String) (now : Nat) : ChatSessionState :=
  { session_id := session_id
    messages := []
    summary := ""
    intents := []
    last_context := ""
    last_retrievals := []
    vector_store_dir := none
    updated_at := now }

/-! ## Operations of `ChatService` -/

/-- `ChatService._append_message`: append, then trim to the last
`max_history_messages` entries whenever the length exceeds the cap, via the
Python slice `messages[-max_history_messages:]`. -/
def appendMessage (cfg : ChatConfig) (ms : List Message) (m : Message) : List Message :=
  if cfg.max_history_messages < ((ms ++ [m]).length : Int) then
    pySliceFrom (-cfg.max_history_messages) (ms ++ [m])
  else ms ++ [m]

/-- `ChatService._estimate_tokens`: `max(1, len(text) // 4)`. -/
def estimateTokens (text : String) : Nat :=
  max 1 (text.length / 4)

/-- `ChatService._messages_as_text`. -/
def messagesAsText (messages : List Message) : String :=
  String.intercalate "\n" (messages.map (fun m => m.role ++ ": " ++ m.content))

/-- The prompt `_refresh_summary` sends to the one-shot completion. -/
def summaryMessages (svc : ChatService) (session : ChatSessionState) : List Message :=
  [⟨"system", svc.config.summarise_prompt⟩,
   ⟨"user", messagesAsText session.messages⟩]

/-- The prompt `_track_intent` sends to the one-shot completion. -/
def intentMessages (svc : ChatService) (latest_user_message : String) : List Message :=
  [⟨"system", svc.config.intent_prompt⟩,
   ⟨"user", latest_user_message⟩]

/-- `ChatService._refresh_summary`: replace the summary with the completion
result; on failure log and leave the session untouched. -/
def refreshSummary (svc : ChatService) (session : ChatSessionState) : ChatSessionState :=
  match svc.client.complete (summaryMessages svc session) with
  | .ok s => { session with summary := s }
  | .error _ => session

/-- `ChatService._track_intent`: append the stripped non-empty intent; on
failure log and leave the session untouched. -/
def trackIntent (svc : ChatService) (session : ChatSessionState)
    (latest_user_message : String) : ChatSessionState :=
  match svc.client.complete (intentMessages svc latest_user_message) with
  | .ok intent =>
      if intent ≠ "" then { session with intents := session.intents ++ [pyStrip intent] }
      else session
  | .error _ => session

/-- `ChatService._ensure_summary`: refresh only when the summary is empty
(`_refresh_summary` already swallows its own failures). -/
def ensureSummary (svc : ChatService) (session : ChatSessionState) : ChatSessionState :=
  if session.summary ≠ "" then session else refreshSummary svc session

/-- `ChatService._build_prompt`. -/
def buildPrompt (svc : ChatService) (session : ChatSessionState) (context : String)
    (system_prompt_override : Option String) : List Message :=
  [⟨"system", pyOrStr system_prompt_override svc.config.system_prompt⟩]
    ++ (if session.summary ≠ "" then
          [⟨"system", "Conversation summary: " ++ session.summary⟩] else [])
    ++ (if context ≠ "" then
          [⟨"system", "Context for this turn:\n" ++ context⟩] else [])
    ++ session.messages

/-- The fixed system message `_enforce_prompt_budget` inserts. -/
def truncationSystemMessage : Message :=
  ⟨"system", "History was replaced with a summary to fit the context window."⟩

/-- `ChatService._enforce_prompt_budget`. Returns the (possibly mutated)
session together with the `(prompt, truncated)` pair of the source; the
session component records the in-place `session.summary` mutation performed
by `_ensure_summary` on the over-budget path. -/
def enforcePromptBudget (svc : ChatService) (session : ChatSessionState)
    (prompt : List Message) (max_tokens : Int) :
    ChatSessionState × List Message × Bool :=
  if max_tokens ≤ 0 then (session, prompt, false)
  else
    let token_count := (prompt.map (fun m => estimateTokens m.content)).sum
    if (token_count : Int) ≤ max_tokens then (session, prompt, false)
    else
      let session := ensureSummary svc session
      let system_msgs := prompt.filter (fun m => m.role = "system")
      let user_msgs := prompt.filter (fun m => ¬ (m.role = "system"))
      let latest_user := pySliceFrom (-1) user_msgs
      let rebuilt :=
        system_msgs
          ++ (if session.summary ≠ "" then
                [⟨"system", "Conversation summary: " ++ session.summary⟩] else [])
          ++ [truncationSystemMessage]
          ++ latest_user
      (session, rebuilt, true)

/-- Everything `stream_chat` computes eagerly and the inner `generator`
closure captures: the id and message of the turn, the final prompt, the
truncation flag, the retrieved context/results, the raw feature-flag
arguments, and (for observability) the retrieval query actually issued. -/
structure TurnPending where
  session_id : String
  message : String
  prompt : List Message
  truncated : Bool
  context_text : String
  retrievals : List SearchResult
  enable_summarisation : Option Bool
  enable_intent_tracking : Option Bool
  retrievalQuery : Option (String × String × String × Int)

/-- The eager phase of `ChatService.stream_chat` (everything before the
`generator` definition): resolve/create the session, bind
`vector_store_dir`, fetch context when `use_context and vector_store_dir
and self.vector_store_provider` holds (failures logged and ignored),
append the user message under the cap, build the prompt and enforce the
budget, leaving the mutated session in the store. -/
def streamChatPre (svc : ChatService) (session_id message : String)
    (vector_store_dir : Option String) (top_k : Option Int)
    (enable_context enable_summarisation enable_intent_tracking : Option Bool)
    (system_prompt : Option String) (now : Nat) : ChatService × TurnPending :=
  let session0 := (dictGet svc.sessions session_id).getD (mkSession session_id now)
  let session1 :=
    { session0 with vector_store_dir := pyOrOptStr session0.vector_store_dir vector_store_dir }
  let use_context := pyFlag enable_context svc.config.enable_context
  let res :=
    match svc.vector_store_provider, use_context && strTruthy vector_store_dir with
    | some f, true =>
        let sd := vector_store_dir.getD ""
        let kk := pyOrInt top_k svc.config.context_top_k
        (match f sd session_id message kk with
         | .ok (c, rs) => (c, rs, some (sd, session_id, message, kk))
         | .error _ => ("", [], some (sd, session_id, message, kk)))
    | _, _ => ("", ([] : List SearchResult), none)
  let session2 :=
    { session1 with messages := appendMessage svc.config session1.messages ⟨"user", message⟩ }
  let prompt0 := buildPrompt svc session2 res.1 system_prompt
  let enforced := enforcePromptBudget svc session2 prompt0 svc.config.max_prompt_tokens
  let svc' := { svc with sessions := dictSet svc.sessions session_id enforced.1 }
  (svc',
   { session_id := session_id
     message := message
     prompt := enforced.2.1
     truncated := enforced.2.2
     context_text := res.1
     retrievals := res.2.1
     enable_summarisation := enable_summarisation
     enable_intent_tracking := enable_intent_tracking
     retrievalQuery := res.2.2 })

/-- `ChatService.stream_chat`: argument validation (`if not session_id`,
`if not message or not message.strip()`) followed by the eager phase. -/
def streamChat (svc : ChatService) (session_id message : String)
    (vector_store_dir : Option String) (top_k : Option Int)
    (enable_context enable_summarisation enable_intent_tracking : Option Bool)
    (system_prompt : Option String) (now : Nat) :
    Except ChatError (ChatService × TurnPending) :=
  if session_id = "" then .error .invalidArgument
  else if message = "" ∨ pyStrip message = "" then .error .invalidArgument
  else .ok (streamChatPre svc session_id message vector_store_dir top_k
        enable_context enable_summarisation enable_intent_tracking system_prompt now)

/-- The fixed notice yielded first on a truncated turn. -/
def truncationNotice : String :=
  "Note: Some earlier conversation was truncated to fit the context window. "

/-- The full fragment sequence the `generator` yields: the truncation notice
(when flagged) followed by every backend fragment. -/
def streamElems (svc : ChatService) (p : TurnPending) : List String :=
  (if p.truncated then [truncationNotice] else []) ++ svc.client.stream_completion p.prompt

/-- `assistant_reply`: the `+=` accumulation over every yielded fragment. -/
def concatFragments (fragments : List String) : String :=
  fragments.foldl (fun a b => a ++ b) ""

/-- The session mutations after the `for` loop in `stream_chat.generator`:
append the assistant reply (the concatenation of every yielded fragment)
under the cap, record `last_context`/`last_retrievals`, advance
`updated_at`, then refresh the summary and track the intent when enabled. -/
def committedSession (svc : ChatService) (p : TurnPending) (now : Nat)
    (session : ChatSessionState) : ChatSessionState :=
  let reply := concatFragments (streamElems svc p)
  let session1 :=
    { session with
      messages := appendMessage svc.config session.messages ⟨"assistant", reply⟩
      last_context := p.context_text
      last_retrievals := p.retrievals
      updated_at := now }
  let session2 :=
    if pyFlag p.enable_summarisation svc.config.enable_summarisation then
      refreshSummary svc session1
    else session1
  if pyFlag p.enable_intent_tracking svc.config.enable_intent_tracking then
    trackIntent svc session2 p.message
  else session2

/-- Running the end of the generator body against the session store: the
closure aliases the session object held in `self.sessions`, so the commit
reads and rewrites the stored session. -/
def commitTurn (svc : ChatService) (p : TurnPending) (now : Nat) : ChatService :=
  match dictGet svc.sessions p.session_id with
  | none => svc
  | some session =>
      { svc with sessions := dictSet svc.sessions p.session_id (committedSession svc p now session) }

/-- Generator trace semantics: `pulls` counts the consumer's element
requests. Each of the first `length` requests returns the next fragment and
runs no post-loop code; only a request past the final fragment (reaching the
end of the generator body) executes the commit. Stopping with
`pulls ≤ length` abandons the stream. -/
def consumeStream (svc : ChatService) (p : TurnPending) (pulls : Nat) (now : Nat) :
    ChatService × List String :=
  let es := streamElems svc p
  if pulls ≤ es.length then (svc, es.take pulls) else (commitTurn svc p now, es)

/-- `ChatService.get_history`: the snapshot is the stored session state
(`ValueError` on an unknown id, the spec's `NotFound`). -/
def getHistory (svc : ChatService) (session_id : String) :
    Except ChatError ChatSessionState :=
  match dictGet svc.sessions session_id with
  | none => .error .notFound
  | some s => .ok s

/-! ## Data model and operations of `load_vectorstore/loader.py` -/

/-- `VectorStoreLoader`, reduced to its observable search behaviour:
`rawSearch` stands for the loaded index plus `embed_documents` + FAISS
`search` + metadata join (the spec's opaque retrieval backend; it may fail
for readiness/embedding/transport reasons). Modelling it as a function makes
it deterministic across calls, which is exactly the determinism assumption
of the results/context consistency claim. -/
structure VectorStoreLoader where
  rawSearch : String → Int → Except Unit (List SearchResult)

/-- `VectorStoreLoader.search`: validates the query and `top_k`, then runs
the backend search (backend failures surface as `Unavailable`). -/
def VectorStoreLoader.search (l : VectorStoreLoader) (query : String) (top_k : Int) :
    Except ChatError (List SearchResult) :=
  if query = "" then .error .invalidArgument
  else if top_k ≤ 0 then .error .invalidArgument
  else
    match l.rawSearch query top_k with
    | .ok rs => .ok rs
    | .error _ => .error .unavailable

/-- `VectorStoreLoader.build_context`: search again, keep the non-empty
`text` fields in rank order, join with the separator. -/
def VectorStoreLoader.buildContext (l : VectorStoreLoader) (query : String)
    (top_k : Int) (sep : String) : Except ChatError String :=
  (l.search query top_k).map
    (fun results =>
      String.intercalate sep ((results.filter (fun r => r.text ≠ "")).map (fun r => r.text)))

/-- `_CacheEntry` from `loader.py`: a loader plus its monotonic
`last_access` stamp. -/
structure CacheEntry where
  loader : VectorStoreLoader
  last_access : Int

/-- `CachedVectorStoreManager`: the per-location manager holding a
session-keyed, TTL-evicted dict of cache entries. -/
structure CachedVectorStoreManager where
  ttl_seconds : Int
  cache : List (String × CacheEntry)

/-- `CachedVectorStoreManager._evict_stale`: drop every entry with
`now - last_access > ttl_seconds`. -/
def evictStale (m : CachedVectorStoreManager) (now : Int) : CachedVectorStoreManager :=
  { m with cache := m.cache.filter (fun e => ¬ (now - e.2.last_access > m.ttl_seconds)) }

/-- `CachedVectorStoreManager._touch`: refresh `last_access` when present. -/
def touchM (m : CachedVectorStoreManager) (session_id : String) (now : Int) :
    CachedVectorStoreManager :=
  let touched := m.cache.map
    (fun e => if e.1 = session_id then (e.1, { e.2 with last_access := now }) else e)
  { m with cache := touched }

/-- `CachedVectorStoreManager.get_loader`: validate, evict stale entries,
then reuse the surviving entry (touching it) or insert `fresh` — the loader
that `load_vector_store(self.store_dir, ...)` would construct now — with
`last_access = now`. -/
def getLoader (m : CachedVectorStoreManager) (session_id : String) (now : Int)
    (fresh : VectorStoreLoader) :
    Except ChatError (VectorStoreLoader × CachedVectorStoreManager) :=
  if session_id = "" then .error .invalidArgument
  else
    let m1 := evictStale m now
    match dictGet m1.cache session_id with
    | some entry => .ok (entry.loader, touchM m1 session_id now)
    | none =>
        .ok (fresh, { m1 with cache := dictSet m1.cache session_id ⟨fresh, now⟩ })

/-- `CachedVectorStoreManager.query`: obtain the session's loader, search,
build the context (a second search inside `build_context`), touch the entry,
and return the `{"results": ..., "context": ...}` payload. -/
def managerQuery (m : CachedVectorStoreManager) (session_id query : String)
    (top_k : Int) (now : Int) (fresh : VectorStoreLoader) :
    Except ChatError ((List SearchResult × String) × CachedVectorStoreManager) :=
  match getLoader m session_id now fresh with
  | .error e => .error e
  | .ok (loader, m1) =>
      match loader.search query top_k with
      | .error e => .error e
      | .ok results =>
          match loader.buildContext query top_k "\n\n" with
          | .error e => .error e
          | .ok context => .ok ((results, context), touchM m1 session_id now)

/-- The total prompt cost of `_enforce_prompt_budget` (line 237): the sum of
`_estimate_tokens` over every assembled message's content. -/
def promptCost (prompt : List Message) : Nat :=
  (prompt.map (fun m => estimateTokens m.content)).sum

/-- Whether an `Except` computation succeeded. -/
def isOkB {ε α : Type} : Except ε α → Bool
  | .ok _ => true
  | .error _ => false

/-! ## Concrete instances used to evaluate the theorems -/

/-- A small configuration with the default switches and limits. -/
def cfgMin : ChatConfig :=
  { system_prompt := "p", summarise_prompt := "q", intent_prompt := "r" }

/-- A completions backend whose every call fails (`Unavailable`). -/
def clientNull : ChatLLMClient :=
  { stream_completion := fun _ => [], complete := fun _ => .error () }

/-- A completions backend streaming two fragments and summarising to "S". -/
def clientOkS : ChatLLMClient :=
  { stream_completion := fun _ => ["a", "b"], complete := fun _ => .ok "S" }

/-- A bare service: no sessions, no retrieval provider. -/
def svcVal : ChatService :=
  { config := cfgMin, client := clientNull, sessions := [], vector_store_provider := none }

/-- A config with a 2-message history cap and a 1-unit prompt budget, so that
every turn is over budget. -/
def cfgTrunc : ChatConfig :=
  { cfgMin with max_history_messages := 2, max_prompt_tokens := 1 }

/-- A service holding one session "s", over-budget on every turn. -/
def svcAbandon : ChatService :=
  { config := cfgTrunc, client := clientOkS, sessions := [("s", mkSession "s" 5)],
    vector_store_provider := none }

/-- The eager phase of a turn on `svcAbandon`. -/
def preAbandon : ChatService × TurnPending :=
  streamChatPre svcAbandon "s" "hello" none none none none none none 9

/-- A config whose history cap is zero. -/
def cfgZeroCap : ChatConfig :=
  { cfgMin with max_history_messages := 0 }

/-- A retrieval provider that always succeeds. -/
def provOk : String → String → String → Int → Except Unit (String × List SearchResult) :=
  fun _ _ _ _ => .ok ("ctx", [])

/-- A retrieval provider that always raises. -/
def provErr : String → String → String → Int → Except Unit (String × List SearchResult) :=
  fun _ _ _ _ => .error ()

/-- A service whose session "s" has a sticky bound retrieval location and
whose provider is configured. -/
def svcSticky : ChatService :=
  { config := cfgMin, client := clientNull,
    sessions := [("s", { mkSession "s" 0 with vector_store_dir := some "loc" })],
    vector_store_provider := some provOk }

/-- A service whose provider and completions backend both always fail. -/
def svcFail : ChatService :=
  { config := cfgMin, client := clientNull, sessions := [("s", mkSession "s" 3)],
    vector_store_provider := some provErr }

/-- Session and prompt exercising the budget enforcement paths. -/
def sessW3 : ChatSessionState :=
  { mkSession "s" 0 with summary := "Z", messages := [⟨"user", "aaaa"⟩] }

def promptW3 : List Message :=
  [⟨"system", "ssss"⟩, ⟨"user", "aaaa"⟩, ⟨"user", "bbbb"⟩]

/-- Loaders and managers exercising the retrieval cache. -/
def loaderA : VectorStoreLoader := ⟨fun _ _ => .ok []⟩

def resA : SearchResult := ⟨1, 0, "A", []⟩

def resEmpty : SearchResult := ⟨2, 0, "", []⟩

def resB : SearchResult := ⟨3, 0, "B", []⟩

def loaderRes : VectorStoreLoader := ⟨fun _ _ => .ok [resA, resEmpty, resB]⟩

/-- ttl 10, entry "a" stale at time 100, entry "b" live. -/
def mgrW : CachedVectorStoreManager :=
  { ttl_seconds := 10, cache := [("a", ⟨loaderA, 0⟩), ("b", ⟨loaderRes, 95⟩)] }

/-- An empty manager. -/
def mgrQ : CachedVectorStoreManager :=
  { ttl_seconds := 10, cache := [] }

/-- A turn-in-flight for session "s" with nothing pending. -/
def pW : TurnPending :=
  { session_id := "s", message := "m", prompt := [], truncated := false,
    context_text := "", retrievals := [], enable_summarisation := none,
    enable_intent_tracking := none, retrievalQuery := none }

/-! ## Dictionary lemmas -/

theorem dictGet_dictSet_self {α : Type} (d : List (String × α)) (k : String) (v : α) :
    dictGet (dictSet d k v) k = some v := by
  induction d with
  | nil => simp [dictSet, dictGet]
  | cons hd tl ih =>
      obtain ⟨k0, v0⟩ := hd
      by_cases h : k0 = k
      · simp [dictSet, dictGet, h]
      · simp [dictSet, dictGet, h, ih]

theorem dictGet_dictSet_ne {α : Type} (d : List (String × α)) (k k' : String) (v : α)
    (h : ¬ k = k') : dictGet (dictSet d k v) k' = dictGet d k' := by
  induction d with
  | nil => simp [dictSet, dictGet, h]
  | cons hd tl ih =>
      obtain ⟨k0, v0⟩ := hd
      by_cases h0 : k0 = k
      · subst h0; simp [dictSet, dictGet, h]
      · simp [dictSet, dictGet, h0, ih]

theorem dictGet_eq_none_of_not_mem {α : Type} (d : List (String × α)) (k : String)
    (h : k ∉ d.map Prod.fst) : dictGet d k = none := by
  induction d with
  | nil => rfl
  | cons hd tl ih =>
      obtain ⟨k0, v0⟩ := hd
      simp only [List.map_cons, List.mem_cons] at h
      push_neg at h
      rw [dictGet, if_neg (fun hk => h.1 hk.symm), ih h.2]

theorem dictGet_filter_none {α : Type} (d : List (String × α)) (k : String)
    (p : String × α → Bool) (h : dictGet d k = none) :
    dictGet (d.filter p) k = none := by
  induction d with
  | nil => simp [dictGet]
  | cons hd tl ih =>
      obtain ⟨k0, v0⟩ := hd
      by_cases h0 : k0 = k
      · rw [dictGet, if_pos h0] at h; exact absurd h (by simp)
      · rw [dictGet, if_neg h0] at h
        by_cases hp : p (k0, v0) = true
        · simp [List.filter_cons, hp, dictGet, h0, ih h]
        · simp [List.filter_cons, hp, ih h]

theorem dictGet_filter_of_wf {α : Type} (d : List (String × α)) (k : String) (v : α)
    (p : String × α → Bool) (hwf : dictWF d) (h : dictGet d k = some v) :
    dictGet (d.filter p) k = if p (k, v) then some v else none := by
  induction d with
  | nil => simp [dictGet] at h
  | cons hd tl ih =>
      obtain ⟨k0, v0⟩ := hd
      have hwf' : dictWF tl := by
        simp only [dictWF, List.map_cons, List.nodup_cons] at hwf
        exact hwf.2
      by_cases h0 : k0 = k
      · subst h0
        rw [dictGet, if_pos rfl] at h
        injection h with h
        subst h
        have hnone : dictGet tl k0 = none := by
          apply dictGet_eq_none_of_not_mem
          simp only [dictWF, List.map_cons, List.nodup_cons] at hwf
          exact hwf.1
        by_cases hp : p (k0, v0) = true
        · simp [List.filter_cons, hp, dictGet]
        · simp [List.filter_cons, hp, dictGet_filter_none tl k0 p hnone]
      · rw [dictGet, if_neg h0] at h
        by_cases hp : p (k0, v0) = true
        · simp [List.filter_cons, hp, dictGet, h0, ih hwf' h]
        · simp [List.filter_cons, hp, ih hwf' h]

/-! ## Slice and history-cap lemmas -/

theorem pySliceFrom_neg_one {α : Type} (l : List α) :
    pySliceFrom (-1) l = l.drop (l.length - 1) := by
  rw [pySliceFrom, if_pos (by norm_num : (-1 : Int) < 0)]
  congr 1
  omega

theorem appendMessage_length_le (cfg : ChatConfig) (ms : List Message) (m : Message)
    (hcap : 1 ≤ cfg.max_history_messages) :
    ((appendMessage cfg ms m).length : Int) ≤ cfg.max_history_messages := by
  rw [appendMessage]
  by_cases h : cfg.max_history_messages < (((ms ++ [m]).length : Nat) : Int)
  · rw [if_pos h, pySliceFrom, if_pos (by omega : -cfg.max_history_messages < 0)]
    rw [List.length_drop]
    omega
  · rw [if_neg h]
    omega

theorem appendMessage_isSuffix (cfg : ChatConfig) (ms : List Message) (m : Message) :
    (appendMessage cfg ms m).IsSuffix (ms ++ [m]) := by
  rw [appendMessage]
  by_cases h : cfg.max_history_messages < (((ms ++ [m]).length : Nat) : Int)
  · rw [if_pos h, pySliceFrom]
    by_cases h2 : -cfg.max_history_messages < 0
    · rw [if_pos h2]; exact List.drop_suffix _ _
    · rw [if_neg h2]; exact List.drop_suffix _ _
  · rw [if_neg h]

theorem appendMessage_getLast (cfg : ChatConfig) (ms : List Message) (m : Message)
    (hcap : 1 ≤ cfg.max_history_messages) :
    (appendMessage cfg ms m).getLast? = some m := by
  rw [appendMessage]
  by_cases h : cfg.max_history_messages < (((ms ++ [m]).length : Nat) : Int)
  · rw [if_pos h, pySliceFrom, if_pos (by omega : -cfg.max_history_messages < 0)]
    have hle : ((((ms ++ [m]).length : Nat) : Int) + -cfg.max_history_messages).toNat ≤ ms.length := by
      rw [List.length_append]
      simp only [List.length_cons, List.length_nil]
      omega
    rw [List.drop_append_of_le_length hle]
    exact List.getLast?_concat _
  · rw [if_neg h]
    exact List.getLast?_concat _

/-! ## Frame lemmas: which session fields each operation can touch -/

theorem refreshSummary_messages (svc : ChatService) (s : ChatSessionState) :
    (refreshSummary svc s).messages = s.messages := by
  rw [refreshSummary]
  cases svc.client.complete (summaryMessages svc s) <;> rfl

theorem refreshSummary_intents (svc : ChatService) (s : ChatSessionState) :
    (refreshSummary svc s).intents = s.intents := by
  rw [refreshSummary]
  cases svc.client.complete (summaryMessages svc s) <;> rfl

theorem refreshSummary_last_context (svc : ChatService) (s : ChatSessionState) :
    (refreshSummary svc s).last_context = s.last_context := by
  rw [refreshSummary]
  cases svc.client.complete (summaryMessages svc s) <;> rfl

theorem refreshSummary_last_retrievals (svc : ChatService) (s : ChatSessionState) :
    (refreshSummary svc s).last_retrievals = s.last_retrievals := by
  rw [refreshSummary]
  cases svc.client.complete (summaryMessages svc s) <;> rfl

theorem refreshSummary_updated_at (svc : ChatService) (s : ChatSessionState) :
    (refreshSummary svc s).updated_at = s.updated_at := by
  rw [refreshSummary]
  cases svc.client.complete (summaryMessages svc s) <;> rfl

theorem refreshSummary_vector_store_dir (svc : ChatService) (s : ChatSessionState) :
    (refreshSummary svc s).vector_store_dir = s.vector_store_dir := by
  rw [refreshSummary]
  cases svc.client.complete (summaryMessages svc s) <;> rfl

theorem refreshSummary_session_id (svc : ChatService) (s : ChatSessionState) :
    (refreshSummary svc s).session_id = s.session_id := by
  rw [refreshSummary]
  cases svc.client.complete (summaryMessages svc s) <;> rfl

theorem ensureSummary_messages (svc : ChatService) (s : ChatSessionState) :
    (ensureSummary svc s).messages = s.messages := by
  rw [ensureSummary]; split <;> simp [refreshSummary_messages]

theorem ensureSummary_intents (svc : ChatService) (s : ChatSessionState) :
    (ensureSummary svc s).intents = s.intents := by
  rw [ensureSummary]; split <;> simp [refreshSummary_intents]

theorem ensureSummary_last_context (svc : ChatService) (s : ChatSessionState) :
    (ensureSummary svc s).last_context = s.last_context := by
  rw [ensureSummary]; split <;> simp [refreshSummary_last_context]

theorem ensureSummary_last_retrievals (svc : ChatService) (s : ChatSessionState) :
    (ensureSummary svc s).last_retrievals = s.last_retrievals := by
  rw [ensureSummary]; split <;> simp [refreshSummary_last_retrievals]

theorem ensureSummary_updated_at (svc : ChatService) (s : ChatSessionState) :
    (ensureSummary svc s).updated_at = s.updated_at := by
  rw [ensureSummary]; split <;> simp [refreshSummary_updated_at]

theorem ensureSummary_vector_store_dir (svc : ChatService) (s : ChatSessionState) :
    (ensureSummary svc s).vector_store_dir = s.vector_store_dir := by
  rw [ensureSummary]; split <;> simp [refreshSummary_vector_store_dir]

theorem ensureSummary_session_id (svc : ChatService) (s : ChatSessionState) :
    (ensureSummary svc s).session_id = s.session_id := by
  rw [ensureSummary]; split <;> simp [refreshSummary_session_id]

theorem trackIntent_messages (svc : ChatService) (s : ChatSessionState) (msg : String) :
    (trackIntent svc s msg).messages = s.messages := by
  rw [trackIntent]
  split
  · split <;> rfl
  · rfl

theorem trackIntent_summary (svc : ChatService) (s : ChatSessionState) (msg : String) :
    (trackIntent svc s msg).summary = s.summary := by
  rw [trackIntent]
  split
  · split <;> rfl
  · rfl

theorem trackIntent_last_context (svc : ChatService) (s : ChatSessionState) (msg : String) :
    (trackIntent svc s msg).last_context = s.last_context := by
  rw [trackIntent]
  split
  · split <;> rfl
  · rfl

theorem trackIntent_last_retrievals (svc : ChatService) (s : ChatSessionState) (msg : String) :
    (trackIntent svc s msg).last_retrievals = s.last_retrievals := by
  rw [trackIntent]
  split
  · split <;> rfl
  · rfl

theorem trackIntent_updated_at (svc : ChatService) (s : ChatSessionState) (msg : String) :
    (trackIntent svc s msg).updated_at = s.updated_at := by
  rw [trackIntent]
  split
  · split <;> rfl
  · rfl

theorem enforce_fst_messages (svc : ChatService) (s : ChatSessionState)
    (pr : List Message) (mt : Int) :
    ((enforcePromptBudget svc s pr mt).1).messages = s.messages := by
  dsimp only [enforcePromptBudget]
  split
  · rfl
  · split
    · rfl
    · simp [ensureSummary_messages]

theorem enforce_fst_intents (svc : ChatService) (s : ChatSessionState)
    (pr : List Message) (mt : Int) :
    ((enforcePromptBudget svc s pr mt).1).intents = s.intents := by
  dsimp only [enforcePromptBudget]
  split
  · rfl
  · split
    · rfl
    · simp [ensureSummary_intents]

theorem enforce_fst_last_context (svc : ChatService) (s : ChatSessionState)
    (pr : List Message) (mt : Int) :
    ((enforcePromptBudget svc s pr mt).1).last_context = s.last_context := by
  dsimp only [enforcePromptBudget]
  split
  · rfl
  · split
    · rfl
    · simp [ensureSummary_last_context]

theorem enforce_fst_last_retrievals (svc : ChatService) (s : ChatSessionState)
    (pr : List Message) (mt : Int) :
    ((enforcePromptBudget svc s pr mt).1).last_retrievals = s.last_retrievals := by
  dsimp only [enforcePromptBudget]
  split
  · rfl
  · split
    · rfl
    · simp [ensureSummary_last_retrievals]

theorem enforce_fst_updated_at (svc : ChatService) (s : ChatSessionState)
    (pr : List Message) (mt : Int) :
    ((enforcePromptBudget svc s pr mt).1).updated_at = s.updated_at := by
  dsimp only [enforcePromptBudget]
  split
  · rfl
  · split
    · rfl
    · simp [ensureSummary_updated_at]

theorem enforce_fst_vector_store_dir (svc : ChatService) (s : ChatSessionState)
    (pr : List Message) (mt : Int) :
    ((enforcePromptBudget svc s pr mt).1).vector_store_dir = s.vector_store_dir := by
  dsimp only [enforcePromptBudget]
  split
  · rfl
  · split
    · rfl
    · simp [ensureSummary_vector_store_dir]

theorem enforce_fst_session_id (svc : ChatService) (s : ChatSessionState)
    (pr : List Message) (mt : Int) :
    ((enforcePromptBudget svc s pr mt).1).session_id = s.session_id := by
  dsimp only [enforcePromptBudget]
  split
  · rfl
  · split
    · rfl
    · simp [ensureSummary_session_id]

/-! ## Fragment concatenation and commit lemmas -/

theorem foldl_append_shift (l : List String) (x : String) :
    l.foldl (fun u v => u ++ v) x = x ++ l.foldl (fun u v => u ++ v) "" := by
  induction l generalizing x with
  | nil => simp
  | cons b tl ih =>
      simp only [List.foldl_cons]
      rw [ih (x ++ b), ih ("" ++ b), String.empty_append, String.append_assoc]

theorem concatFragments_cons (a : String) (l : List String) :
    concatFragments (a :: l) = a ++ concatFragments l := by
  rw [concatFragments, concatFragments, List.foldl_cons, String.empty_append,
    foldl_append_shift]

theorem committedSession_messages (svc : ChatService) (p : TurnPending) (now : Nat)
    (s : ChatSessionState) :
    (committedSession svc p now s).messages
      = appendMessage svc.config s.messages
          ⟨"assistant", concatFragments (streamElems svc p)⟩ := by
  cases h1 : pyFlag p.enable_summarisation svc.config.enable_summarisation <;>
  cases h2 : pyFlag p.enable_intent_tracking svc.config.enable_intent_tracking <;>
    simp [committedSession, h1, h2, trackIntent_messages, refreshSummary_messages]

theorem committedSession_updated_at (svc : ChatService) (p : TurnPending) (now : Nat)
    (s : ChatSessionState) :
    (committedSession svc p now s).updated_at = now := by
  cases h1 : pyFlag p.enable_summarisation svc.config.enable_summarisation <;>
  cases h2 : pyFlag p.enable_intent_tracking svc.config.enable_intent_tracking <;>
    simp [committedSession, h1, h2, trackIntent_updated_at, refreshSummary_updated_at]

theorem committedSession_last_context (svc : ChatService) (p : TurnPending) (now : Nat)
    (s : ChatSessionState) :
    (committedSession svc p now s).last_context = p.context_text := by
  cases h1 : pyFlag p.enable_summarisation svc.config.enable_summarisation <;>
  cases h2 : pyFlag p.enable_intent_tracking svc.config.enable_intent_tracking <;>
    simp [committedSession, h1, h2, trackIntent_last_context, refreshSummary_last_context]

theorem committedSession_last_retrievals (svc : ChatService) (p : TurnPending) (now : Nat)
    (s : ChatSessionState) :
    (committedSession svc p now s).last_retrievals = p.retrievals := by
  cases h1 : pyFlag p.enable_summarisation svc.config.enable_summarisation <;>
  cases h2 : pyFlag p.enable_intent_tracking svc.config.enable_intent_tracking <;>
    simp [committedSession, h1, h2, trackIntent_last_retrievals, refreshSummary_last_retrievals]

theorem commitTurn_stored (svc : ChatService) (p : TurnPending) (now : Nat)
    (s : ChatSessionState) (h : dictGet svc.sessions p.session_id = some s) :
    dictGet (commitTurn svc p now).sessions p.session_id
      = some (committedSession svc p now s) := by
  unfold commitTurn
  rw [h]
  exact dictGet_dictSet_self _ _ _

/-! ## Error-path lemmas: enrichment failures leave the session unchanged -/

theorem refreshSummary_of_error (svc : ChatService) (s : ChatSessionState)
    (h : svc.client.complete (summaryMessages svc s) = .error ()) :
    refreshSummary svc s = s := by
  rw [refreshSummary, h]

theorem trackIntent_of_error (svc : ChatService) (s : ChatSessionState) (msg : String)
    (h : svc.client.complete (intentMessages svc msg) = .error ()) :
    trackIntent svc s msg = s := by
  rw [trackIntent, h]

theorem ensureSummary_of_error (svc : ChatService) (s : ChatSessionState)
    (h : svc.client.complete (summaryMessages svc s) = .error ()) :
    ensureSummary svc s = s := by
  rw [ensureSummary]
  split
  · rfl
  · exact refreshSummary_of_error svc s h

theorem enforce_fst_of_complete_error (svc : ChatService) (s : ChatSessionState)
    (pr : List Message) (mt : Int)
    (h : svc.client.complete (summaryMessages svc s) = .error ()) :
    (enforcePromptBudget svc s pr mt).1 = s := by
  dsimp only [enforcePromptBudget]
  split
  · rfl
  · split
    · rfl
    · simp [ensureSummary_of_error svc s h]

/-! ## The stored session immediately after the eager phase of `stream_chat` -/

theorem streamChatPre_stored_proj (svc : ChatService) (sid msg : String)
    (vsd : Option String) (tk : Option Int) (ec es eit : Option Bool)
    (sp : Option String) (now : Nat) :
    (dictGet (streamChatPre svc sid msg vsd tk ec es eit sp now).1.sessions sid).map
        (fun s => (s.session_id, s.messages, s.intents, s.last_context,
                   s.last_retrievals, s.updated_at, s.vector_store_dir))
      = some
          (((dictGet svc.sessions sid).getD (mkSession sid now)).session_id,
           appendMessage svc.config
             ((dictGet svc.sessions sid).getD (mkSession sid now)).messages ⟨"user", msg⟩,
           ((dictGet svc.sessions sid).getD (mkSession sid now)).intents,
           ((dictGet svc.sessions sid).getD (mkSession sid now)).last_context,
           ((dictGet svc.sessions sid).getD (mkSession sid now)).last_retrievals,
           ((dictGet svc.sessions sid).getD (mkSession sid now)).updated_at,
           pyOrOptStr ((dictGet svc.sessions sid).getD (mkSession sid now)).vector_store_dir vsd) := by
  dsimp only [streamChatPre]
  rw [dictGet_dictSet_self]
  simp [enforce_fst_session_id, enforce_fst_messages, enforce_fst_intents,
    enforce_fst_last_context, enforce_fst_last_retrievals, enforce_fst_updated_at,
    enforce_fst_vector_store_dir]

theorem streamChatPre_fst_config (svc : ChatService) (sid msg : String)
    (vsd : Option String) (tk : Option Int) (ec es eit : Option Bool)
    (sp : Option String) (now : Nat) :
    (streamChatPre svc sid msg vsd tk ec es eit sp now).1.config = svc.config := rfl

theorem streamChatPre_fst_client (svc : ChatService) (sid msg : String)
    (vsd : Option String) (tk : Option Int) (ec es eit : Option Bool)
    (sp : Option String) (now : Nat) :
    (streamChatPre svc sid msg vsd tk ec es eit sp now).1.client = svc.client := rfl

/-! ## Consumption and snapshot lemmas -/

theorem getHistory_toOption (svc : ChatService) (sid : String) :
    (getHistory svc sid).toOption = dictGet svc.sessions sid := by
  rw [getHistory]
  cases dictGet svc.sessions sid <;> rfl

theorem consumeStream_abandoned (svc : ChatService) (p : TurnPending) (pulls t : Nat)
    (h : pulls ≤ (streamElems svc p).length) :
    consumeStream svc p pulls t = (svc, (streamElems svc p).take pulls) := by
  rw [consumeStream, if_pos h]

theorem consumeStream_run (svc : ChatService) (p : TurnPending) (pulls t : Nat)
    (h : (streamElems svc p).length < pulls) :
    consumeStream svc p pulls t = (commitTurn svc p t, streamElems svc p) := by
  rw [consumeStream, if_neg (by omega)]

theorem streamChatPre_snd_session_id (svc : ChatService) (sid msg : String)
    (vsd : Option String) (tk : Option Int) (ec es eit : Option Bool)
    (sp : Option String) (now : Nat) :
    (streamChatPre svc sid msg vsd tk ec es eit sp now).2.session_id = sid := rfl

/-- The retrieval query `stream_chat` issues, as a function of the call's
own `vector_store_dir` argument (line 92 of `service.py` tests the argument,
not the session's sticky binding). -/
theorem streamChatPre_retrievalQuery (svc : ChatService) (sid msg : String)
    (vsd : Option String) (tk : Option Int) (ec es eit : Option Bool)
    (sp : Option String) (now : Nat) :
    (streamChatPre svc sid msg vsd tk ec es eit sp now).2.retrievalQuery
      = if (pyFlag ec svc.config.enable_context && strTruthy vsd
              && svc.vector_store_provider.isSome) = true
        then some (vsd.getD "", sid, msg, pyOrInt tk svc.config.context_top_k)
        else none := by
  dsimp only [streamChatPre]
  cases hp : svc.vector_store_provider with
  | none =>
      cases hb : pyFlag ec svc.config.enable_context && strTruthy vsd <;> simp [hp, hb]
  | some f =>
      cases hb : pyFlag ec svc.config.enable_context && strTruthy vsd
      · simp [hp, hb]
      · cases hr : f (vsd.getD "") sid msg (pyOrInt tk svc.config.context_top_k) <;>
          simp [hp, hb, hr]

theorem touch_list_dictGet_none (l : List (String × CacheEntry)) (s k : String) (t : Int)
    (h : dictGet l k = none) :
    dictGet (l.map (fun e => if e.1 = s then (e.1, { e.2 with last_access := t }) else e)) k
      = none := by
  induction l with
  | nil => rfl
  | cons hd tl ih =>
      obtain ⟨k0, e0⟩ := hd
      rw [dictGet] at h
      by_cases h0 : k0 = k
      · rw [if_pos h0] at h; exact absurd h (by simp)
      · rw [if_neg h0] at h
        rw [List.map_cons]
        show dictGet
            ((if k0 = s then (k0, { e0 with last_access := t }) else (k0, e0)) ::
              tl.map (fun e => if e.1 = s then (e.1, { e.2 with last_access := t }) else e)) k
          = none
        by_cases hs : k0 = s
        · rw [if_pos hs, dictGet, if_neg h0]
          exact ih h
        · rw [if_neg hs, dictGet, if_neg h0]
          exact ih h

/-- With a completions backend whose every call fails, budget enforcement
cannot change the session at all. -/
theorem streamChatPre_stored_of_complete_error (svc : ChatService) (sid msg : String)
    (vsd : Option String) (tk : Option Int) (ec es eit : Option Bool)
    (sp : Option String) (now : Nat)
    (hc : ∀ ms, svc.client.complete ms = .error ()) :
    dictGet (streamChatPre svc sid msg vsd tk ec es eit sp now).1.sessions sid
      = some
          { (dictGet svc.sessions sid).getD (mkSession sid now) with
            vector_store_dir :=
              pyOrOptStr ((dictGet svc.sessions sid).getD (mkSession sid now)).vector_store_dir vsd
            messages :=
              appendMessage svc.config
                ((dictGet svc.sessions sid).getD (mkSession sid now)).messages ⟨"user", msg⟩ } := by
  dsimp only [streamChatPre]
  rw [dictGet_dictSet_self, enforce_fst_of_complete_error _ _ _ _ (hc _)]

/-- With a failing completions backend the commit only appends the reply and
stamps the turn: summary refresh and intent extraction are no-ops. -/
theorem committedSession_of_complete_error (svc : ChatService) (p : TurnPending) (now : Nat)
    (s : ChatSessionState) (hc : ∀ ms, svc.client.complete ms = .error ()) :
    committedSession svc p now s
      = { s with
          messages := appendMessage svc.config s.messages
            ⟨"assistant", concatFragments (streamElems svc p)⟩
          last_context := p.context_text
          last_retrievals := p.retrievals
          updated_at := now } := by
  cases h1 : pyFlag p.enable_summarisation svc.config.enable_summarisation <;>
  cases h2 : pyFlag p.enable_intent_tracking svc.config.enable_intent_tracking <;>
    simp [committedSession, h1, h2, refreshSummary_of_error _ _ (hc _),
      trackIntent_of_error _ _ _ (hc _)]

/-! ## Claim theorems -/

/-- C2 counterexample: the claim fails as stated. With
`max_history_messages = 0` the Python trim `messages[-0:]` is the whole
list, so after appending a user message the history has 1 > 0 entries. -/
theorem history_cap_zero_counterexample :
    ¬ (((appendMessage cfgZeroCap [] ⟨"user", "a"⟩).length : Int)
        ≤ cfgZeroCap.max_history_messages) := by
  decide

/-- C2 (amended: the invariant holds whenever `max_history_messages ≥ 1`;
a nonpositive cap is never enforced because `messages[-0:]` keeps the whole
list and a negative cap drops from the front): after every append — the user
append and the assistant append of a committed turn both go through
`_append_message` — the history has at most `max_history_messages` entries
and is a suffix (the most recent entries, in original order) of the history
with the new message appended. -/
theorem history_cap_invariant (svc : ChatService) (ms : List Message) (m : Message)
    (p : TurnPending) (t : Nat)
    (hcap : 1 ≤ svc.config.max_history_messages) :
    ((appendMessage svc.config ms m).length : Int) ≤ svc.config.max_history_messages ∧
    (appendMessage svc.config ms m).IsSuffix (ms ++ [m]) ∧
    (∀ s s', dictGet svc.sessions p.session_id = some s →
       dictGet (commitTurn svc p t).sessions p.session_id = some s' →
       ((s'.messages.length : Int) ≤ svc.config.max_history_messages ∧
        s'.messages.IsSuffix
          (s.messages ++ [⟨"assistant", concatFragments (streamElems svc p)⟩]))) := by
  refine ⟨appendMessage_length_le _ _ _ hcap, appendMessage_isSuffix _ _ _, ?_⟩
  intro s s' hs hs'
  rw [commitTurn_stored svc p t s hs] at hs'
  injection hs' with hs'
  subst hs'
  rw [committedSession_messages]
  exact ⟨appendMessage_length_le _ _ _ hcap, appendMessage_isSuffix _ _ _⟩

theorem history_cap_invariant_witness :
    1 ≤ svcAbandon.config.max_history_messages ∧
    ((appendMessage svcAbandon.config [⟨"user", "x"⟩, ⟨"assistant", "y"⟩]
        ⟨"user", "z"⟩).length : Int) ≤ svcAbandon.config.max_history_messages :=
  ⟨by decide,
   (history_cap_invariant svcAbandon [⟨"user", "x"⟩, ⟨"assistant", "y"⟩] ⟨"user", "z"⟩
      pW 7 (by decide)).1⟩

/-- C3: budget enforcement. With message cost `max(1, len // 4)` summed over
the prompt: a nonpositive budget disables enforcement; an in-budget prompt
passes unchanged; an over-budget prompt is rebuilt as the original
system-role messages, the (post-ensure) summary note when non-empty, the
fixed truncation-notice system message, and the single most recent
non-system message, with the flag true. The stored history is untouched,
the summary is only generated when empty, and a generation failure is
swallowed leaving the prior summary. -/
theorem enforce_prompt_budget_spec (svc : ChatService) (s : ChatSessionState)
    (pr : List Message) (mt : Int) :
    (mt ≤ 0 → enforcePromptBudget svc s pr mt = (s, pr, false)) ∧
    (0 < mt → (promptCost pr : Int) ≤ mt →
       enforcePromptBudget svc s pr mt = (s, pr, false)) ∧
    (0 < mt → mt < (promptCost pr : Int) →
       enforcePromptBudget svc s pr mt
         = (ensureSummary svc s,
            pr.filter (fun m => m.role = "system")
              ++ (if (ensureSummary svc s).summary ≠ "" then
                    [⟨"system", "Conversation summary: " ++ (ensureSummary svc s).summary⟩]
                  else [])
              ++ [truncationSystemMessage]
              ++ (pr.filter (fun m => ¬ (m.role = "system"))).drop
                   ((pr.filter (fun m => ¬ (m.role = "system"))).length - 1),
            true)) ∧
    ((enforcePromptBudget svc s pr mt).1).messages = s.messages ∧
    (¬ s.summary = "" → ensureSummary svc s = s) ∧
    (svc.client.complete (summaryMessages svc s) = .error () →
       (ensureSummary svc s).summary = s.summary) := by
  refine ⟨?_, ?_, ?_, enforce_fst_messages _ _ _ _, ?_, ?_⟩
  · intro h
    dsimp only [enforcePromptBudget]
    rw [if_pos h]
  · intro h1 h2
    dsimp only [enforcePromptBudget]
    rw [if_neg (by omega : ¬ mt ≤ 0),
      if_pos (show (((pr.map (fun m => estimateTokens m.content)).sum : Nat) : Int) ≤ mt by
        simpa [promptCost] using h2)]
  · intro h1 h2
    dsimp only [enforcePromptBudget]
    rw [if_neg (by omega : ¬ mt ≤ 0),
      if_neg (show ¬ (((pr.map (fun m => estimateTokens m.content)).sum : Nat) : Int) ≤ mt by
        simp only [promptCost] at h2
        omega),
      pySliceFrom_neg_one]
  · intro h
    rw [ensureSummary, if_pos h]
  · intro h
    rw [ensureSummary]
    split
    · rfl
    · rw [refreshSummary_of_error _ _ h]

theorem enforce_prompt_budget_spec_witness :
    enforcePromptBudget svcVal sessW3 promptW3 0 = (sessW3, promptW3, false) ∧
    enforcePromptBudget svcVal sessW3 promptW3 100 = (sessW3, promptW3, false) ∧
    enforcePromptBudget svcVal sessW3 promptW3 2
      = (ensureSummary svcVal sessW3,
         promptW3.filter (fun m => m.role = "system")
           ++ (if (ensureSummary svcVal sessW3).summary ≠ "" then
                 [⟨"system", "Conversation summary: " ++ (ensureSummary svcVal sessW3).summary⟩]
               else [])
           ++ [truncationSystemMessage]
           ++ (promptW3.filter (fun m => ¬ (m.role = "system"))).drop
                ((promptW3.filter (fun m => ¬ (m.role = "system"))).length - 1),
         true) :=
  ⟨(enforce_prompt_budget_spec svcVal sessW3 promptW3 0).1 (by decide),
   (enforce_prompt_budget_spec svcVal sessW3 promptW3 100).2.1 (by decide) (by decide),
   (enforce_prompt_budget_spec svcVal sessW3 promptW3 2).2.2.1 (by decide) (by decide)⟩

/-- C5 counterexample: the claim fails as stated. A whitespace-only
`session_id` is truthy in Python (`if not session_id` only catches the
empty string), so `stream_chat(" ", "hi")` is accepted rather than
rejected with `InvalidArgument`. -/
theorem whitespace_session_id_accepted :
    isOkB (streamChat svcVal " " "hi" none none none none none none 0) = true ∧
    pyStrip " " = "" := by
  constructor
  · rfl
  · decide

/-- C5 (amended: the empty-string check applies to `session_id`, while the
whitespace-only check applies only to `message`): `stream_chat` fails with
`InvalidArgument` exactly when `session_id` is empty or `message` is empty
or whitespace-only, and on a valid call it returns the eager phase directly
— the rejection happens before any retrieval query, completion request or
session mutation. -/
theorem stream_chat_validation (svc : ChatService) (sid msg : String)
    (vsd : Option String) (tk : Option Int) (ec es eit : Option Bool)
    (sp : Option String) (now : Nat) :
    (streamChat svc sid msg vsd tk ec es eit sp now = .error .invalidArgument
       ↔ (sid = "" ∨ msg = "" ∨ pyStrip msg = "")) ∧
    (¬ (sid = "" ∨ msg = "" ∨ pyStrip msg = "") →
       streamChat svc sid msg vsd tk ec es eit sp now
         = .ok (streamChatPre svc sid msg vsd tk ec es eit sp now)) := by
  by_cases hs : sid = ""
  · refine ⟨⟨fun _ => Or.inl hs, fun _ => ?_⟩, fun hn => absurd (Or.inl hs) hn⟩
    rw [streamChat, if_pos hs]
  · by_cases hm : msg = "" ∨ pyStrip msg = ""
    · refine ⟨⟨fun _ => Or.inr hm, fun _ => ?_⟩, fun hn => absurd (Or.inr hm) hn⟩
      rw [streamChat, if_neg hs, if_pos hm]
    · have hok : streamChat svc sid msg vsd tk ec es eit sp now
          = .ok (streamChatPre svc sid msg vsd tk ec es eit sp now) := by
        rw [streamChat, if_neg hs, if_neg hm]
      refine ⟨⟨fun he => ?_, fun hor => ?_⟩, fun _ => hok⟩
      · rw [hok] at he
        exact absurd he (by simp)
      · rcases hor with h | h
        · exact absurd h hs
        · exact absurd h hm

theorem stream_chat_validation_witness :
    (streamChat svcVal "" "hi" none none none none none none 0
       = .error .invalidArgument) ∧
    (streamChat svcVal "t" "hi" none none none none none none 0
       = .ok (streamChatPre svcVal "t" "hi" none none none none none none 0)) :=
  ⟨(stream_chat_validation svcVal "" "hi" none none none none none none 0).1.mpr
     (Or.inl rfl),
   (stream_chat_validation svcVal "t" "hi" none none none none none none 0).2
     (by decide)⟩

/-- C6 counterexample: the claim fails as stated. Session "s" has a sticky
bound retrieval location, context is enabled and a provider is configured,
yet a call that does not itself pass `vector_store_dir` issues no retrieval
query — line 92 of `service.py` tests the call argument, not the binding. -/
theorem sticky_location_not_used_for_retrieval :
    (streamChatPre svcSticky "s" "hi" none none none none none none 1).2.retrievalQuery
        = none ∧
    (dictGet svcSticky.sessions "s").map (fun s => s.vector_store_dir)
        = some (some "loc") ∧
    svcSticky.config.enable_context = true ∧
    svcSticky.vector_store_provider.isSome = true :=
  ⟨rfl, rfl, rfl, rfl⟩

/-- C6 (amended: retrieval happens only when the location is supplied,
non-empty, as this call's own `vector_store_dir` argument — the sticky
session binding is never consulted): the retrieval cache is queried for
`(session_id, message, top_k)` against the argument's store directory
exactly when resolved context is enabled, the argument is a non-empty
string, and a provider is configured. -/
theorem retrieval_query_condition (svc : ChatService) (sid msg : String)
    (vsd : Option String) (tk : Option Int) (ec es eit : Option Bool)
    (sp : Option String) (now : Nat) :
    (streamChatPre svc sid msg vsd tk ec es eit sp now).2.retrievalQuery
      = if (pyFlag ec svc.config.enable_context && strTruthy vsd
              && svc.vector_store_provider.isSome) = true
        then some (vsd.getD "", sid, msg, pyOrInt tk svc.config.context_top_k)
        else none :=
  streamChatPre_retrievalQuery svc sid msg vsd tk ec es eit sp now

/-- C1 counterexample: the claim fails as stated. On an over-budget turn,
`_enforce_prompt_budget` refreshes the empty summary synchronously at call
time, so a stream abandoned after 2 of its 3 fragments still leaves the
session summary changed from "" to "S". -/
theorem abandoned_call_refreshed_summary :
    ((getHistory (consumeStream preAbandon.1 preAbandon.2 2 77).1 "s").toOption).map
        (fun s => s.summary) = some "S" ∧
    ((getHistory svcAbandon "s").toOption).map (fun s => s.summary) = some "" ∧
    2 ≤ (streamElems preAbandon.1 preAbandon.2).length := by
  refine ⟨rfl, rfl, by decide⟩

/-- C1 (amended: abandoning the stream runs none of the post-turn side
effects — no assistant message is recorded, and intents, `last_context`,
`last_retrievals` and `updated_at` keep their pre-call values; the summary,
however, may already have been refreshed at call time by budget
enforcement): consuming at most `length` elements returns the fragments and
leaves the service exactly in its post-call state, whose session holds only
the appended user message on top of the pre-call fields. -/
theorem abandoned_stream_frame (svc : ChatService) (sid msg : String)
    (vsd : Option String) (tk : Option Int) (ec es eit : Option Bool)
    (sp : Option String) (now t pulls : Nat)
    (h : pulls ≤ (streamElems (streamChatPre svc sid msg vsd tk ec es eit sp now).1
                    (streamChatPre svc sid msg vsd tk ec es eit sp now).2).length) :
    consumeStream (streamChatPre svc sid msg vsd tk ec es eit sp now).1
        (streamChatPre svc sid msg vsd tk ec es eit sp now).2 pulls t
      = ((streamChatPre svc sid msg vsd tk ec es eit sp now).1,
         (streamElems (streamChatPre svc sid msg vsd tk ec es eit sp now).1
            (streamChatPre svc sid msg vsd tk ec es eit sp now).2).take pulls) ∧
    ((getHistory (consumeStream (streamChatPre svc sid msg vsd tk ec es eit sp now).1
          (streamChatPre svc sid msg vsd tk ec es eit sp now).2 pulls t).1 sid).toOption).map
        (fun s => (s.messages, s.intents, s.last_context, s.last_retrievals, s.updated_at))
      = some (appendMessage svc.config
                ((dictGet svc.sessions sid).getD (mkSession sid now)).messages ⟨"user", msg⟩,
              ((dictGet svc.sessions sid).getD (mkSession sid now)).intents,
              ((dictGet svc.sessions sid).getD (mkSession sid now)).last_context,
              ((dictGet svc.sessions sid).getD (mkSession sid now)).last_retrievals,
              ((dictGet svc.sessions sid).getD (mkSession sid now)).updated_at) := by
  have h1 := consumeStream_abandoned
    (streamChatPre svc sid msg vsd tk ec es eit sp now).1
    (streamChatPre svc sid msg vsd tk ec es eit sp now).2 pulls t h
  refine ⟨h1, ?_⟩
  have hfst : (consumeStream (streamChatPre svc sid msg vsd tk ec es eit sp now).1
      (streamChatPre svc sid msg vsd tk ec es eit sp now).2 pulls t).1
      = (streamChatPre svc sid msg vsd tk ec es eit sp now).1 := by
    rw [h1]
  rw [hfst, getHistory_toOption]
  have h2 := streamChatPre_stored_proj svc sid msg vsd tk ec es eit sp now
  cases ho : dictGet (streamChatPre svc sid msg vsd tk ec es eit sp now).1.sessions sid with
  | none => rw [ho] at h2; exact absurd h2 (by simp)
  | some s' =>
      rw [ho] at h2
      simp only [Option.map_some', Option.some.injEq, Prod.mk.injEq] at h2 ⊢
      obtain ⟨hid, hmsgs, hint, hlc, hlr, hua, hvsd⟩ := h2
      exact ⟨hmsgs, hint, hlc, hlr, hua⟩

theorem abandoned_stream_frame_witness :
    0 ≤ (streamElems preAbandon.1 preAbandon.2).length ∧
    consumeStream preAbandon.1 preAbandon.2 0 99
      = (preAbandon.1, (streamElems preAbandon.1 preAbandon.2).take 0) :=
  ⟨Nat.zero_le _,
   (abandoned_stream_frame svcAbandon "s" "hello" none none none none none none 9 99 0
      (Nat.zero_le _)).1⟩

/-- C4: on a turn whose prompt required budget-driven truncation, the very
first element of the output sequence is the fixed notice string, before any
model-generated fragment, and after full consumption the recorded assistant
reply is the notice followed by the concatenated model fragments — the
notice is its prefix. -/
theorem truncation_notice_spec (svc : ChatService) (sid msg : String)
    (vsd : Option String) (tk : Option Int) (ec es eit : Option Bool)
    (sp : Option String) (now t : Nat)
    (hcap : 1 ≤ svc.config.max_history_messages)
    (htr : (streamChatPre svc sid msg vsd tk ec es eit sp now).2.truncated = true) :
    streamElems (streamChatPre svc sid msg vsd tk ec es eit sp now).1
        (streamChatPre svc sid msg vsd tk ec es eit sp now).2
      = truncationNotice
          :: svc.client.stream_completion
               (streamChatPre svc sid msg vsd tk ec es eit sp now).2.prompt ∧
    ((getHistory (consumeStream (streamChatPre svc sid msg vsd tk ec es eit sp now).1
          (streamChatPre svc sid msg vsd tk ec es eit sp now).2
          ((streamElems (streamChatPre svc sid msg vsd tk ec es eit sp now).1
              (streamChatPre svc sid msg vsd tk ec es eit sp now).2).length + 1) t).1
        sid).toOption).bind (fun s => s.messages.getLast?)
      = some ⟨"assistant",
              truncationNotice
                ++ concatFragments (svc.client.stream_completion
                     (streamChatPre svc sid msg vsd tk ec es eit sp now).2.prompt)⟩ := by
  have he : streamElems (streamChatPre svc sid msg vsd tk ec es eit sp now).1
      (streamChatPre svc sid msg vsd tk ec es eit sp now).2
      = truncationNotice
          :: svc.client.stream_completion
               (streamChatPre svc sid msg vsd tk ec es eit sp now).2.prompt := by
    rw [streamElems, htr]
    rfl
  refine ⟨he, ?_⟩
  have hrun := consumeStream_run
    (streamChatPre svc sid msg vsd tk ec es eit sp now).1
    (streamChatPre svc sid msg vsd tk ec es eit sp now).2
    ((streamElems (streamChatPre svc sid msg vsd tk ec es eit sp now).1
        (streamChatPre svc sid msg vsd tk ec es eit sp now).2).length + 1) t (by omega)
  have hfst : (consumeStream (streamChatPre svc sid msg vsd tk ec es eit sp now).1
      (streamChatPre svc sid msg vsd tk ec es eit sp now).2
      ((streamElems (streamChatPre svc sid msg vsd tk ec es eit sp now).1
          (streamChatPre svc sid msg vsd tk ec es eit sp now).2).length + 1) t).1
      = commitTurn (streamChatPre svc sid msg vsd tk ec es eit sp now).1
          (streamChatPre svc sid msg vsd tk ec es eit sp now).2 t := by
    rw [hrun]
  rw [hfst, getHistory_toOption]
  obtain ⟨s', hs'⟩ : ∃ s',
      dictGet (streamChatPre svc sid msg vsd tk ec es eit sp now).1.sessions sid = some s' := by
    have h2 := streamChatPre_stored_proj svc sid msg vsd tk ec es eit sp now
    cases ho : dictGet (streamChatPre svc sid msg vsd tk ec es eit sp now).1.sessions sid with
    | none => rw [ho] at h2; exact absurd h2 (by simp)
    | some s' => exact ⟨s', rfl⟩
  have hc2 : dictGet (commitTurn (streamChatPre svc sid msg vsd tk ec es eit sp now).1
      (streamChatPre svc sid msg vsd tk ec es eit sp now).2 t).sessions sid
      = some (committedSession (streamChatPre svc sid msg vsd tk ec es eit sp now).1
          (streamChatPre svc sid msg vsd tk ec es eit sp now).2 t s') :=
    commitTurn_stored (streamChatPre svc sid msg vsd tk ec es eit sp now).1
      (streamChatPre svc sid msg vsd tk ec es eit sp now).2 t s' hs'
  rw [hc2]
  show (committedSession (streamChatPre svc sid msg vsd tk ec es eit sp now).1
      (streamChatPre svc sid msg vsd tk ec es eit sp now).2 t s').messages.getLast? = _
  rw [committedSession_messages,
    appendMessage_getLast (streamChatPre svc sid msg vsd tk ec es eit sp now).1.config
      s'.messages _ hcap,
    he, concatFragments_cons]

theorem truncation_notice_spec_witness :
    1 ≤ svcAbandon.config.max_history_messages ∧
    (streamChatPre svcAbandon "s" "hello" none none none none none none 9).2.truncated
        = true ∧
    streamElems preAbandon.1 preAbandon.2
      = truncationNotice
          :: svcAbandon.client.stream_completion preAbandon.2.prompt :=
  ⟨by decide, rfl,
   (truncation_notice_spec svcAbandon "s" "hello" none none none none none none 9 99
      (by decide) rfl).1⟩

/-- C7: `get_loader` rejects an empty session id; otherwise it first evicts
every entry (any session's) with `now - last_access > ttl_seconds`, then
returns the surviving entry for the requested session with `last_access`
touched to `now`, or inserts and returns the freshly constructed handle with
`last_access = now`. Consequently an entry stale by more than the TTL is
absent after the call whatever session was requested, and the evicted
session itself gets a reconstructed fresh handle. -/
theorem get_loader_ttl_spec (m : CachedVectorStoreManager) (sid : String) (now : Int)
    (fresh : VectorStoreLoader) (hwf : dictWF m.cache) (hsid : ¬ sid = "") :
    (getLoader m "" now fresh = .error .invalidArgument) ∧
    (∀ e, dictGet (evictStale m now).cache sid = some e →
       getLoader m sid now fresh = .ok (e.loader, touchM (evictStale m now) sid now)) ∧
    (dictGet (evictStale m now).cache sid = none →
       getLoader m sid now fresh
         = .ok (fresh, { evictStale m now with
                         cache := dictSet (evictStale m now).cache sid ⟨fresh, now⟩ })) ∧
    (∀ sid' e', dictGet m.cache sid' = some e' →
       now - e'.last_access > m.ttl_seconds →
       ∀ l m', getLoader m sid now fresh = .ok (l, m') →
         dictGet m'.cache sid' = (if sid' = sid then some ⟨fresh, now⟩ else none)) := by
  refine ⟨rfl, ?_, ?_, ?_⟩
  · intro e he
    dsimp only [getLoader]
    rw [if_neg hsid, he]
  · intro hnone
    dsimp only [getLoader]
    rw [if_neg hsid, hnone]
  · intro sid' e' he' hstale l m' hok
    have hev : dictGet (evictStale m now).cache sid' = none := by
      dsimp only [evictStale]
      rw [dictGet_filter_of_wf m.cache sid' e' _ hwf he']
      simp [hstale]
    dsimp only [getLoader] at hok
    rw [if_neg hsid] at hok
    by_cases hss : sid' = sid
    · subst hss
      rw [hev] at hok
      injection hok with hok
      injection hok with hok1 hok2
      subst hok2
      rw [if_pos rfl]
      exact dictGet_dictSet_self _ _ _
    · rw [if_neg hss]
      cases hge : dictGet (evictStale m now).cache sid with
      | some e =>
          rw [hge] at hok
          injection hok with hok
          injection hok with hok1 hok2
          subst hok2
          dsimp only [touchM]
          exact touch_list_dictGet_none _ _ _ _ hev
      | none =>
          rw [hge] at hok
          injection hok with hok
          injection hok with hok1 hok2
          subst hok2
          rw [dictGet_dictSet_ne _ _ _ _ (fun h => hss h.symm)]
          exact hev

theorem get_loader_ttl_spec_witness :
    dictWF mgrW.cache ∧ ¬ ("b" : String) = "" ∧
    dictGet (touchM (evictStale mgrW 100) "b" 100).cache "a"
      = (if "a" = "b" then some (⟨loaderA, 100⟩ : CacheEntry) else none) :=
  ⟨by show (mgrW.cache.map Prod.fst).Nodup; decide, by decide,
   (get_loader_ttl_spec mgrW "b" 100 loaderA
      (by show (mgrW.cache.map Prod.fst).Nodup; decide) (by decide)).2.2.2
     "a" ⟨loaderA, 0⟩ rfl (by decide) loaderRes
     (touchM (evictStale mgrW 100) "b" 100) rfl⟩

/-- C8: enrichment is best-effort. With a retrieval provider that always
raises and a completions backend whose one-shot calls always fail, a turn
still proceeds: the call is accepted, the context is treated as empty with
no retrievals, and after full consumption the turn commits — the assistant
reply is recorded and `updated_at` advances — while the prior summary and
intents are left exactly unchanged. -/
theorem best_effort_enrichment (svc : ChatService) (sid msg : String)
    (vsd : Option String) (tk : Option Int) (ec es eit : Option Bool)
    (sp : Option String) (now t : Nat)
    (f : String → String → String → Int → Except Unit (String × List SearchResult))
    (hp : svc.vector_store_provider = some f)
    (hf : ∀ a b c d, f a b c d = .error ())
    (hc : ∀ ms, svc.client.complete ms = .error ())
    (hval : ¬ (sid = "" ∨ msg = "" ∨ pyStrip msg = "")) :
    streamChat svc sid msg vsd tk ec es eit sp now
        = .ok (streamChatPre svc sid msg vsd tk ec es eit sp now) ∧
    (streamChatPre svc sid msg vsd tk ec es eit sp now).2.context_text = "" ∧
    (streamChatPre svc sid msg vsd tk ec es eit sp now).2.retrievals = [] ∧
    ((getHistory (consumeStream (streamChatPre svc sid msg vsd tk ec es eit sp now).1
          (streamChatPre svc sid msg vsd tk ec es eit sp now).2
          ((streamElems (streamChatPre svc sid msg vsd tk ec es eit sp now).1
              (streamChatPre svc sid msg vsd tk ec es eit sp now).2).length + 1) t).1
        sid).toOption).map (fun s => (s.summary, s.intents, s.messages, s.updated_at))
      = some (((dictGet svc.sessions sid).getD (mkSession sid now)).summary,
              ((dictGet svc.sessions sid).getD (mkSession sid now)).intents,
              appendMessage svc.config
                (appendMessage svc.config
                  ((dictGet svc.sessions sid).getD (mkSession sid now)).messages
                  ⟨"user", msg⟩)
                ⟨"assistant",
                 concatFragments (streamElems
                   (streamChatPre svc sid msg vsd tk ec es eit sp now).1
                   (streamChatPre svc sid msg vsd tk ec es eit sp now).2)⟩,
              t) := by
  have hok : streamChat svc sid msg vsd tk ec es eit sp now
      = .ok (streamChatPre svc sid msg vsd tk ec es eit sp now) := by
    rcases not_or.mp hval with ⟨h1, h23⟩
    rw [streamChat, if_neg h1, if_neg (not_or.mp hval).2]
  have hctx : (streamChatPre svc sid msg vsd tk ec es eit sp now).2.context_text = ""
      ∧ (streamChatPre svc sid msg vsd tk ec es eit sp now).2.retrievals = [] := by
    dsimp only [streamChatPre]
    rw [hp]
    cases hb : pyFlag ec svc.config.enable_context && strTruthy vsd
    · simp
    · simp [hf]
  refine ⟨hok, hctx.1, hctx.2, ?_⟩
  have hstored := streamChatPre_stored_of_complete_error svc sid msg vsd tk ec es eit sp now hc
  have hrun := consumeStream_run
    (streamChatPre svc sid msg vsd tk ec es eit sp now).1
    (streamChatPre svc sid msg vsd tk ec es eit sp now).2
    ((streamElems (streamChatPre svc sid msg vsd tk ec es eit sp now).1
        (streamChatPre svc sid msg vsd tk ec es eit sp now).2).length + 1) t (by omega)
  have hfst : (consumeStream (streamChatPre svc sid msg vsd tk ec es eit sp now).1
      (streamChatPre svc sid msg vsd tk ec es eit sp now).2
      ((streamElems (streamChatPre svc sid msg vsd tk ec es eit sp now).1
          (streamChatPre svc sid msg vsd tk ec es eit sp now).2).length + 1) t).1
      = commitTurn (streamChatPre svc sid msg vsd tk ec es eit sp now).1
          (streamChatPre svc sid msg vsd tk ec es eit sp now).2 t := by
    rw [hrun]
  rw [hfst, getHistory_toOption]
  have hc2 : dictGet (commitTurn (streamChatPre svc sid msg vsd tk ec es eit sp now).1
      (streamChatPre svc sid msg vsd tk ec es eit sp now).2 t).sessions sid
      = some (committedSession (streamChatPre svc sid msg vsd tk ec es eit sp now).1
          (streamChatPre svc sid msg vsd tk ec es eit sp now).2 t
          { (dictGet svc.sessions sid).getD (mkSession sid now) with
            vector_store_dir :=
              pyOrOptStr ((dictGet svc.sessions sid).getD (mkSession sid now)).vector_store_dir vsd
            messages :=
              appendMessage svc.config
                ((dictGet svc.sessions sid).getD (mkSession sid now)).messages ⟨"user", msg⟩ }) :=
    commitTurn_stored (streamChatPre svc sid msg vsd tk ec es eit sp now).1
      (streamChatPre svc sid msg vsd tk ec es eit sp now).2 t _ hstored
  rw [hc2, committedSession_of_complete_error
    (streamChatPre svc sid msg vsd tk ec es eit sp now).1
    (streamChatPre svc sid msg vsd tk ec es eit sp now).2 t _ hc]
  rfl

theorem best_effort_enrichment_witness :
    (streamChatPre svcFail "s" "hello" none none none none none none 9).2.context_text
        = "" ∧
    (streamChatPre svcFail "s" "hello" none none none none none none 9).2.retrievals
        = [] :=
  ⟨((best_effort_enrichment svcFail "s" "hello" none none none none none none 9 77
       provErr rfl (fun a b c d => rfl) (fun ms => rfl) (by decide)).2.1),
   ((best_effort_enrichment svcFail "s" "hello" none none none none none none 9 77
       provErr rfl (fun a b c d => rfl) (fun ms => rfl) (by decide)).2.2.1)⟩

/-- C9: every pre-turn effect happens eagerly at call time, before any
element of the returned sequence is consumed: the session (created if
unseen) holds the user message appended under the hard cap and the
`vector_store_dir` binding, the retrieval query has already been issued (or
skipped) per the call-time condition, and even with zero consumption a
subsequent `get_history` shows the new user message as the last entry. -/
theorem eager_pre_turn_effects (svc : ChatService) (sid msg : String)
    (vsd : Option String) (tk : Option Int) (ec es eit : Option Bool)
    (sp : Option String) (now t pulls : Nat)
    (hcap : 1 ≤ svc.config.max_history_messages) :
    (pulls ≤ (streamElems (streamChatPre svc sid msg vsd tk ec es eit sp now).1
        (streamChatPre svc sid msg vsd tk ec es eit sp now).2).length →
      consumeStream (streamChatPre svc sid msg vsd tk ec es eit sp now).1
          (streamChatPre svc sid msg vsd tk ec es eit sp now).2 pulls t
        = ((streamChatPre svc sid msg vsd tk ec es eit sp now).1,
           (streamElems (streamChatPre svc sid msg vsd tk ec es eit sp now).1
              (streamChatPre svc sid msg vsd tk ec es eit sp now).2).take pulls)) ∧
    ((getHistory (streamChatPre svc sid msg vsd tk ec es eit sp now).1 sid).toOption).map
        (fun s => (s.messages, s.vector_store_dir))
      = some (appendMessage svc.config
                ((dictGet svc.sessions sid).getD (mkSession sid now)).messages ⟨"user", msg⟩,
              pyOrOptStr
                ((dictGet svc.sessions sid).getD (mkSession sid now)).vector_store_dir vsd) ∧
    ((getHistory (streamChatPre svc sid msg vsd tk ec es eit sp now).1 sid).toOption).bind
        (fun s => s.messages.getLast?) = some ⟨"user", msg⟩ ∧
    (streamChatPre svc sid msg vsd tk ec es eit sp now).2.retrievalQuery
      = (if (pyFlag ec svc.config.enable_context && strTruthy vsd
              && svc.vector_store_provider.isSome) = true
         then some (vsd.getD "", sid, msg, pyOrInt tk svc.config.context_top_k)
         else none) := by
  have h2 := streamChatPre_stored_proj svc sid msg vsd tk ec es eit sp now
  refine ⟨fun h => consumeStream_abandoned _ _ pulls t h, ?_, ?_,
    streamChatPre_retrievalQuery svc sid msg vsd tk ec es eit sp now⟩
  · rw [getHistory_toOption]
    cases ho : dictGet (streamChatPre svc sid msg vsd tk ec es eit sp now).1.sessions sid with
    | none => rw [ho] at h2; exact absurd h2 (by simp)
    | some s' =>
        rw [ho] at h2
        simp only [Option.map_some', Option.some.injEq, Prod.mk.injEq] at h2 ⊢
        obtain ⟨hid, hmsgs, hint, hlc, hlr, hua, hvsd⟩ := h2
        exact ⟨hmsgs, hvsd⟩
  · rw [getHistory_toOption]
    cases ho : dictGet (streamChatPre svc sid msg vsd tk ec es eit sp now).1.sessions sid with
    | none => rw [ho] at h2; exact absurd h2 (by simp)
    | some s' =>
        rw [ho] at h2
        simp only [Option.map_some', Option.some.injEq, Prod.mk.injEq] at h2
        obtain ⟨hid, hmsgs, hint, hlc, hlr, hua, hvsd⟩ := h2
        show s'.messages.getLast? = some ⟨"user", msg⟩
        rw [hmsgs, appendMessage_getLast _ _ _ hcap]

theorem eager_pre_turn_effects_witness :
    1 ≤ svcVal.config.max_history_messages ∧
    ((getHistory (streamChatPre svcVal "t" "hi" none none none none none none 0).1
        "t").toOption).bind (fun s => s.messages.getLast?)
      = some ⟨"user", "hi"⟩ :=
  ⟨by decide,
   (eager_pre_turn_effects svcVal "t" "hi" none none none none none none 0 5 0
      (by decide)).2.2.1⟩

/-- C10: for a non-empty session id and query and positive `top_k`, a
successful `CachedVectorStoreManager.query` returns a context string equal
to the "\n\n"-joined non-empty `text` fields of its returned results in
rank order — the two underlying searches (one direct, one inside
`build_context`) agree because the backend is modelled as deterministic. -/
theorem query_context_consistency (mgr : CachedVectorStoreManager) (sid q : String)
    (k now : Int) (fresh : VectorStoreLoader)
    (hsid : ¬ sid = "") (hq : ¬ q = "") (hk : 0 < k) :
    ∀ results context m',
      managerQuery mgr sid q k now fresh = .ok ((results, context), m') →
      context = String.intercalate "\n\n"
        ((results.filter (fun r => r.text ≠ "")).map (fun r => r.text)) := by
  intro results context m' h
  dsimp only [managerQuery] at h
  split at h
  · exact absurd h (by simp)
  · split at h
    · exact absurd h (by simp)
    · split at h
      · exact absurd h (by simp)
      · injection h with h
        injection h with h1 h2
        injection h1 with ha hb
        subst ha
        subst hb
        simp_all [VectorStoreLoader.buildContext, Except.map]

theorem query_context_consistency_witness :
    ¬ ("a" : String) = "" ∧ ¬ ("q" : String) = "" ∧ (0 : Int) < 2 ∧
    ("A\n\nB" : String) = String.intercalate "\n\n"
      (([resA, resEmpty, resB].filter (fun r => r.text ≠ "")).map (fun r => r.text)) :=
  ⟨by decide, by decide, by decide,
   query_context_consistency mgrQ "a" "q" 2 100 loaderRes (by decide) (by decide)
     (by decide) [resA, resEmpty, resB] "A\n\nB"
     { ttl_seconds := 10, cache := [("a", ⟨loaderRes, 100⟩)] } rfl⟩
